import Mathlib

/-!
# Verification of the CDAI PDF batch pipeline (`src/app.py`)

Shallow embedding of the document-generation pipeline of `app.py`:
`split_pdf`, `fill_page`, `merge_pdfs` and the per-record loop of
`process_files`, together with theorems settling the specification
claims about them.

Modelling conventions:
* A pandas cell value is `Value`: either a scalar rendered by `str(...)`
  (`Value.vstr`, numbers are represented by their rendered string) or the
  float NaN placed by pandas in empty cells (`Value.vnan`, with
  `str(nan) = "nan"` and `pd.notna nan = false`).
* A row's `row.to_dict()` is a `Record`: an association list from
  normalized column name to `Value`; a column absent from the data file
  is an absent key.
* A PDF page is `Page`: an opaque original content identifier plus the
  list of `insert_text` overlays stamped onto it; a document is a list
  of pages.
* The filesystem is `FS`: a map from paths to documents plus the set of
  existing directories.  `fitz` `save` raises on a zero-page document
  ("cannot save with zero pages") and when the target's parent directory
  does not exist; `fitz` `open` raises when the file is absent.
  Paths are represented structurally (`FPath`): the per-session folders
  are fixed (`uploads/<run>` and `completed/<run>`; the spec excludes
  session-folder naming from the core), `page_{k}.pdf` split files and
  their `_filled` variants are identified by page number `k`, and any
  other path by directory plus file name.
-/

/-- A scalar cell value as it appears in `row.to_dict()`: either a value
    whose `str(...)` rendering is the given string, or pandas' NaN. -/
inductive Value
  | vstr (s : String)
  | vnan
deriving DecidableEq, Repr

/-- Python `str(value)`; `str(float('nan')) = "nan"`. -/
def pyStr : Value → String
  | .vstr s => s
  | .vnan => "nan"

/-- `pd.notna`: false exactly on NaN. -/
def pd_notna : Value → Bool
  | .vstr _ => true
  | .vnan => false

/-- `row.to_dict()`: ordered mapping from normalized field name to value. -/
abbrev Record := List (String × Value)

/-- Python `dict.get(key, default)` followed by f-string rendering of the
    result: the string of the stored value when the key is present
    (NaN renders as `"nan"`), the default string otherwise. -/
def dictGet (data : Record) (key : String) (default : String) : String :=
  match data.lookup key with
  | some v => pyStr v
  | none => default

/-- A coordinate entry of a placement table: `(x, y)` or a list of
    `(x, y)` pairs (the `isinstance(coord[0], tuple)` branch). -/
inductive Coord
  | single (p : Nat × Nat)
  | multi (ps : List (Nat × Nat))
deriving DecidableEq, Repr

/-- The points of a coordinate entry. -/
def coordPoints : Coord → List (Nat × Nat)
  | .single p => [p]
  | .multi ps => ps

/-- A single page of a document: opaque original content plus the
    `insert_text` overlays stamped onto it, in stamping order. -/
structure Page where
  content : Nat
  overlays : List ((Nat × Nat) × String)
deriving DecidableEq, Repr

/-- A PDF document: its list of pages. -/
abbrev Doc := List Page

/-- The `insert_text` calls performed by the loop of `fill_page` for the
    given record and coordinate table: for each `(field, coord)` entry,
    if `field in data and pd.notna(data[field])`, the value's string is
    inserted at `(x, y+5)` for every point of the entry; otherwise the
    field is skipped. -/
def fillPageCalls (data : Record) (coordinates : List (String × Coord)) :
    List ((Nat × Nat) × String) :=
  coordinates.flatMap (fun fc =>
    match data.lookup fc.1 with
    | some v =>
      if pd_notna v then
        (coordPoints fc.2).map (fun p => ((p.1, p.2 + 5), pyStr v))
      else []
    | none => [])

/-- Session folder `uploads/<run_id>` (folder naming is outside the core). -/
def uploadDir : String := "uploads/run"

/-- Session folder `completed/<run_id>`. -/
def completedDir : String := "completed/run"

/-- A file path, represented structurally: `pageFile d k` is
    `d/page_{k}.pdf` as written by `split_pdf`; `filledFile d k` is
    `d/page_{k}_filled.pdf` as produced by `fill_page`'s
    `.replace(".pdf", "_filled.pdf")`; `named d n` is `d/n` for every
    other path (the session template copy, the per-record output). -/
inductive FPath
  | pageFile (dir : String) (k : Nat)
  | filledFile (dir : String) (k : Nat)
  | named (dir : String) (name : String)
deriving DecidableEq, Repr

/-- `pdf_path.replace(".pdf", "_filled.pdf")` on the path shapes of this
    program: a split page file becomes its filled variant; on other
    shapes the replacement acts on the file name (these cases are not
    reached by `process_files`, which fills split page files only). -/
def replaceFilled : FPath → FPath
  | .pageFile d k => .filledFile d k
  | .filledFile d k => .named d ("page_" ++ toString k ++ "_filled_filled.pdf")
  | .named d n => .named d (n.replace ".pdf" "_filled.pdf")

/-- The last path component of a file name (`os.path.basename` applied
    under a directory that contains no separator), computed on the
    character list of the name. -/
def lastComponent (n : String) : String :=
  String.mk (((n.data.splitOn '/').reverse).headD n.data)

/-- `os.path.basename` of a path. -/
def baseName : FPath → String
  | .pageFile _ k => "page_" ++ toString k ++ ".pdf"
  | .filledFile _ k => "page_" ++ toString k ++ "_filled.pdf"
  | .named _ n => lastComponent n

/-- The directory that must exist for a save to the path to succeed:
    the parent directory of the full path string.  For a `named` path
    whose file name itself contains `/`, the parent is a subdirectory of
    `dir` (e.g. saving to `completed/run/a/b.pdf` needs
    `completed/run/a`). -/
def parentDirOf : FPath → String
  | .pageFile d _ => d
  | .filledFile d _ => d
  | .named d n =>
    if n.data.contains '/' then
      d ++ "/" ++ String.mk (List.intercalate ['/'] ((n.data.splitOn '/').dropLast))
    else d

/-- The filesystem: files as a map from path to document, plus the set of
    existing directories (the two session folders, created by
    `os.makedirs` before processing; no others are ever created). -/
structure FS where
  files : FPath → Option Doc
  dirs : List String

/-- Write (create or overwrite) a file. -/
def fsWrite (p : FPath) (d : Doc) (fs : FS) : FS :=
  { fs with files := fun q => if q = p then some d else fs.files q }

/-- `os.remove`. -/
def fsRemove (p : FPath) (fs : FS) : FS :=
  { fs with files := fun q => if q = p then none else fs.files q }

/-- `os.path.exists` (for the file paths this program tests). -/
def fsExists (p : FPath) (fs : FS) : Bool :=
  (fs.files p).isSome

/-- `fitz.open(path)`: the document when the file exists, an exception
    otherwise. -/
def fitzOpen (p : FPath) (fs : FS) : Except String Doc :=
  match fs.files p with
  | some d => .ok d
  | none => .error "cannot open broken document"

/-- `Document.save(path)`: raises `ValueError("cannot save with zero
    pages")` on a document with no pages; otherwise writes the document
    when the parent directory exists and raises when it does not. -/
def fitzSave (p : FPath) (d : Doc) (fs : FS) : Except String FS :=
  if d.isEmpty then .error "cannot save with zero pages"
  else if fs.dirs.contains (parentDirOf p) then .ok (fsWrite p d fs)
  else .error "save: no such file or directory"

/-- The loop of `split_pdf`: `for page_num in range(len(pdf_document))`,
    writing `{output_dir}/page_{page_num+1}.pdf` containing exactly that
    page, and collecting the paths in order.  A failing save raises,
    keeping the files written so far. -/
def splitLoop (outDir : String) (ps : List Page) (i : Nat) (fs : FS) :
    Except String (List FPath) × FS :=
  match ps with
  | [] => (.ok [], fs)
  | pg :: rest =>
    let p := FPath.pageFile outDir (i + 1)
    match fitzSave p [pg] fs with
    | .error e => (.error e, fs)
    | .ok fs1 =>
      match splitLoop outDir rest (i + 1) fs1 with
      | (.error e, fs2) => (.error e, fs2)
      | (.ok paths, fs2) => (.ok (p :: paths), fs2)

/-- `split_pdf(input_pdf_path, output_dir)`: opens the document and writes
    one single-page file per page, returning the split paths in page
    order. -/
def split_pdf (inputPdfPath : FPath) (outDir : String) (fs : FS) :
    Except String (List FPath) × FS :=
  match fitzOpen inputPdfPath fs with
  | .error e => (.error e, fs)
  | .ok doc => splitLoop outDir doc 0 fs

/-- The effect on a page of the `insert_text` calls of `fill_page`: the
    calls are appended to the page's overlays; the original content is
    untouched (stamping is purely additive). -/
def stampPage (pg : Page) (calls : List ((Nat × Nat) × String)) : Page :=
  { pg with overlays := pg.overlays ++ calls }

/-- `fill_page(pdf_path, data, coordinates)`: opens the document, loads
    page 0 (raising when the document has no pages), performs the
    `insert_text` calls of the coordinate loop on that page, and saves
    the result under the `_filled` path, returning that path. -/
def fill_page (pdfPath : FPath) (data : Record)
    (coordinates : List (String × Coord)) (fs : FS) :
    Except String FPath × FS :=
  match fitzOpen pdfPath fs with
  | .error e => (.error e, fs)
  | .ok doc =>
    match doc with
    | [] => (.error "page 0 is not in document", fs)
    | pg :: rest =>
      let pg' : Page := stampPage pg (fillPageCalls data coordinates)
      let tempPath := replaceFilled pdfPath
      match fitzSave tempPath (pg' :: rest) fs with
      | .error e => (.error e, fs)
      | .ok fs1 => (.ok tempPath, fs1)

/-- The page-collection loop of `merge_pdfs`: for each path, when the
    file exists its pages are appended to the merged document; missing
    files are silently skipped. -/
def collectPages (paths : List FPath) (fs : FS) : Doc :=
  paths.flatMap (fun p =>
    match fs.files p with
    | some d => d
    | none => [])

/-- `merge_pdfs(output_pdf_path, pdf_paths)`: concatenates the pages of
    all existing input files, in order, and saves the merged document. -/
def merge_pdfs (outputPdfPath : FPath) (pdfPaths : List FPath) (fs : FS) :
    Except String Unit × FS :=
  match fitzSave outputPdfPath (collectPages pdfPaths fs) fs with
  | .error e => (.error e, fs)
  | .ok fs1 => (.ok (), fs1)

/-- Page-1 placement table `coords_p1` of `process_files`. -/
def coords_p1 : List (String × Coord) :=
  [("mc", .single (75, 250)), ("lastname", .single (75, 330)),
   ("firstname", .single (75, 360)), ("dob", .single (75, 400)),
   ("wt", .single (75, 430)), ("ht", .single (75, 475))]

/-- Page-3 placement table `coords_p3` of `process_files`. -/
def coords_p3 : List (String × Coord) := [("wt", .single (325, 525))]

/-- The session copy of the template, `uploads/<run>/template.pdf`. -/
def templatePath : FPath := .named uploadDir "template.pdf"

/-- The cleanup loop `for p in pages + filled_pages: if os.path.exists(p):
    os.remove(p)`. -/
def cleanupFiles (ps : List FPath) (fs : FS) : FS :=
  ps.foldl (fun acc p => if fsExists p acc then fsRemove p acc else acc) fs

/-- The merge-and-cleanup tail of the per-record `try` block:
    `merge_pdfs(out_pdf, filled_pages)` followed by removal of
    `pages + filled_pages`. -/
def mergeAndClean (outPdf : FPath) (pages filledPages : List FPath) (fs : FS) :
    Except String Unit × FS :=
  match merge_pdfs outPdf filledPages fs with
  | (.error e, fs1) => (.error e, fs1)
  | (.ok _, fs1) => (.ok (), cleanupFiles (pages ++ filledPages) fs1)

/-- The body of the per-record `try` block of `process_files`: split the
    session template, fill page 1 with `coords_p1`, pass page 2 through,
    fill page 3 with `coords_p3`, pass any further pages through, merge
    into `out_pdf`, and remove the intermediate files.  Any raised
    exception is returned as an error together with the filesystem as
    already modified. -/
def recordTry (outPdf : FPath) (data : Record) (fs : FS) :
    Except String Unit × FS :=
  match split_pdf templatePath uploadDir fs with
  | (.error e, fs1) => (.error e, fs1)
  | (.ok pages, fs1) =>
    match pages with
    | [] => mergeAndClean outPdf pages [] fs1
    | p1 :: rest1 =>
      match fill_page p1 data coords_p1 fs1 with
      | (.error e, fs2) => (.error e, fs2)
      | (.ok f1, fs2) =>
        match rest1 with
        | [] => mergeAndClean outPdf pages [f1] fs2
        | p2 :: rest2 =>
          match rest2 with
          | [] => mergeAndClean outPdf pages [f1, p2] fs2
          | p3 :: rest3 =>
            match fill_page p3 data coords_p3 fs2 with
            | (.error e, fs3) => (.error e, fs3)
            | (.ok f3, fs3) =>
              mergeAndClean outPdf pages ([f1, p2, f3] ++ rest3) fs3

/-- `f"{data.get('firstname', '')} {data.get('lastname', 'N/A')}"`. -/
def patientName (data : Record) : String :=
  dictGet data "firstname" "" ++ " " ++ dictGet data "lastname" "N/A"

/-- `f"Row {index + 2} (Patient: {patient_name})"`. -/
def rowIdentifier (index : Nat) (data : Record) : String :=
  "Row " ++ toString (index + 2) ++ " (Patient: " ++ patientName data ++ ")"

/-- `f"{patient_lastname}_{patient_firstname}_CDAI.pdf"` with the
    `dict.get` placeholder defaults. -/
def outFilename (data : Record) : String :=
  dictGet data "lastname" "unknown_lastname" ++ "_" ++
    dictGet data "firstname" "unknown_firstname" ++ "_CDAI.pdf"

/-- `out_pdf = os.path.join(session_completed_folder, filename)`. -/
def outPdfPath (data : Record) : FPath :=
  .named completedDir (outFilename data)

/-- The SUCCESS report line of a record. -/
def successLine (index : Nat) (data : Record) : String :=
  "SUCCESS: " ++ rowIdentifier index data ++ " -> Generated " ++ outFilename data

/-- The ERROR report line of a record. -/
def errorLine (index : Nat) (data : Record) (e : String) : String :=
  "ERROR: " ++ rowIdentifier index data ++ " - An unexpected error occurred: " ++ e

/-- The batch-level mutable state of `process_files`: the filesystem, the
    `processing_log` entries and the `generated_files` list. -/
structure BatchState where
  fs : FS
  log : List String
  generated : List FPath

/-- One iteration of the record loop: run the `try` block; on success
    append `out_pdf` to `generated_files` and a SUCCESS line to the log;
    on an exception append an ERROR line carrying the row identifier and
    the error detail, and continue. -/
def processRow (index : Nat) (data : Record) (st : BatchState) : BatchState :=
  match recordTry (outPdfPath data) data st.fs with
  | (.ok _, fs') =>
    { fs := fs', log := st.log ++ [successLine index data],
      generated := st.generated ++ [outPdfPath data] }
  | (.error e, fs') =>
    { fs := fs', log := st.log ++ [errorLine index data e],
      generated := st.generated }

/-- The record loop `for index, row in df.iterrows()`. -/
def processRows (index : Nat) (rows : List Record) (st : BatchState) : BatchState :=
  match rows with
  | [] => st
  | row :: rest => processRows (index + 1) rest (processRow index row st)

/-- The hardcoded local template `BLANK_CDAI_APP_DEC-25.pdf` as it is
    printed into the report header. -/
def localTemplateDisplay : String := "BLANK_CDAI_APP_DEC-25.pdf"

/-- The four header entries appended to `processing_log` before the
    record loop. -/
def headerLog (dataFilename : String) : List String :=
  ["--- CDAI PDF Processing Report ---",
   "Data file: " ++ dataFilename,
   "Using Default Template: " ++ localTemplateDisplay,
   "\n---\n"]

/-- The footer entry `"\n---\nReport finished."` appended after the loop. -/
def footerLine : String := "\n---\nReport finished."

/-- The filesystem at the start of the record loop: the two session
    folders exist and the session holds exactly the copied template. -/
def initFS (tpl : Doc) : FS :=
  { files := fun q => if q = templatePath then some tpl else none,
    dirs := [uploadDir, completedDir] }

/-- The batch state after the record loop and the footer append:
    `processing_log` holds the header, one line per record and the
    footer; `generated_files` holds one output path per successful
    record. -/
def batchFinal (tpl : Doc) (dataFilename : String) (rows : List Record) :
    BatchState :=
  let st := processRows 0 rows
    { fs := initFS tpl, log := headerLog dataFilename, generated := [] }
  { st with log := st.log ++ [footerLine] }

/-- The caller-visible outcome of a batch: either the empty-batch signal
    (the 400 response `"...the data file was empty or no actions were
    taken"`) or the zip archive, given by its entry names (the
    `arcname`s: base names of the generated files plus the report) and
    the report entries. -/
inductive BatchResult
  | emptyBatch
  | archive (entries : List String) (report : List String)
deriving DecidableEq, Repr

/-- The tail of `process_files`: after writing the report, return the
    empty-batch signal when `not generated_files and
    len(processing_log) <= 4`, and otherwise the archive of all
    generated files plus the report. -/
def batchResult (tpl : Doc) (dataFilename : String) (rows : List Record) :
    BatchResult :=
  let st := batchFinal tpl dataFilename rows
  if st.generated.isEmpty ∧ st.log.length ≤ 4 then .emptyBatch
  else .archive (st.generated.map baseName ++ ["processing_report.txt"]) st.log

/-- Which pandas reader the data file is handed to. -/
inductive ParserKind
  | csv
  | excel
deriving DecidableEq, Repr

/-- `pd.read_csv(data_path) if ext == '.csv' else pd.read_excel(data_path)`:
    the reader is `read_csv` exactly for the `.csv` extension and
    `read_excel` for every other extension. -/
def chooseParser (ext : String) : ParserKind :=
  if ext = ".csv" then .csv else .excel

/-- Reading the tabular data file: the outcome of whichever pandas reader
    the extension selects (the readers themselves are external library
    collaborators, passed in as their outcomes: the parsed records, or
    the exception they raise). -/
def read_tabular (ext : String)
    (csvParse excelParse : Except String (List Record)) :
    Except String (List Record) :=
  match chooseParser ext with
  | .csv => csvParse
  | .excel => excelParse

/-- The `/process` handler from the point the data file is read: a reader
    exception propagates out of the handler (aborting the request before
    any record is processed); otherwise the batch runs to a
    `BatchResult`. -/
def process_files (ext : String)
    (csvParse excelParse : Except String (List Record))
    (tpl : Doc) (dataFilename : String) : Except String BatchResult :=
  match read_tabular ext csvParse excelParse with
  | .error e => .error e
  | .ok rows => .ok (batchResult tpl dataFilename rows)

/-- Modelled from the spec, for comparison with `chooseParser`
    (section 4.1: "Input file type (CSV vs. spreadsheet) is selected by
    file extension; fails with `UnsupportedFormat` on unrecognized
    extensions"): the spec's reader selection returns no reader
    (= `UnsupportedFormat`) on an extension that is neither CSV nor a
    recognized spreadsheet format. -/
def specReaderChoice (ext : String) : Option ParserKind :=
  if ext = ".csv" then some .csv
  else if [".xls", ".xlsx", ".xlsm", ".xlsb", ".ods"].contains ext then some .excel
  else none

/-- The per-record success flags of a batch: one Boolean per record, in
    order, recording whether that record's `try` block completed without
    an exception (the filesystem threading matches the loop's). -/
def successFlags (rows : List Record) (fs : FS) : List Bool :=
  match rows with
  | [] => []
  | row :: rest =>
    match recordTry (outPdfPath row) row fs with
    | (.ok _, fs') => true :: successFlags rest fs'
    | (.error _, fs') => false :: successFlags rest fs'

/-- The split page paths `page_{i+1}.pdf ... page_{i+n}.pdf` under a
    directory, as returned by `split_pdf` for an `n`-page document when
    the loop starts at page index `i`. -/
def pagePaths (d : String) (i n : Nat) : List FPath :=
  match n with
  | 0 => []
  | m + 1 => .pageFile d (i + 1) :: pagePaths d (i + 1) m

/-- The filesystem effect of the loop of `split_pdf`: the page files
    written in order. -/
def writePages (d : String) (i : Nat) (ps : List Page) (fs : FS) : FS :=
  match ps with
  | [] => fs
  | pg :: rest => writePages d (i + 1) rest (fsWrite (.pageFile d (i + 1)) [pg] fs)

lemma fsWrite_files (p : FPath) (d : Doc) (fs : FS) (q : FPath) :
    (fsWrite p d fs).files q = if q = p then some d else fs.files q := rfl

lemma fsWrite_dirs (p : FPath) (d : Doc) (fs : FS) :
    (fsWrite p d fs).dirs = fs.dirs := rfl

lemma fsRemove_files (p : FPath) (fs : FS) (q : FPath) :
    (fsRemove p fs).files q = if q = p then none else fs.files q := rfl

lemma writePages_dirs (d : String) :
    ∀ (ps : List Page) (i : Nat) (fs : FS), (writePages d i ps fs).dirs = fs.dirs := by
  intro ps
  induction ps with
  | nil => intro i fs; rfl
  | cons pg rest ih => intro i fs; simpa [writePages] using ih (i + 1) (fsWrite _ _ fs)

lemma splitLoop_run (d : String) :
    ∀ (ps : List Page) (i : Nat) (fs : FS), fs.dirs.contains d = true →
      splitLoop d ps i fs = (.ok (pagePaths d i ps.length), writePages d i ps fs) := by
  intro ps
  induction ps with
  | nil => intro i fs _; simp [splitLoop, pagePaths, writePages]
  | cons pg rest ih =>
    intro i fs h
    have hmem : d ∈ fs.dirs := by simpa using h
    have hsave : fitzSave (FPath.pageFile d (i + 1)) [pg] fs =
        .ok (fsWrite (FPath.pageFile d (i + 1)) [pg] fs) := by
      simp [fitzSave, parentDirOf, hmem]
    have hdirs : (fsWrite (FPath.pageFile d (i + 1)) [pg] fs).dirs.contains d = true := by
      simpa [fsWrite_dirs] using h
    simp [splitLoop, hsave, ih (i + 1) _ hdirs, pagePaths, writePages]

lemma writePages_files_ne (d : String) :
    ∀ (ps : List Page) (i : Nat) (fs : FS) (q : FPath),
      (∀ k, q ≠ .pageFile d k) → (writePages d i ps fs).files q = fs.files q := by
  intro ps
  induction ps with
  | nil => intro i fs q _; rfl
  | cons pg rest ih =>
    intro i fs q hq
    have := ih (i + 1) (fsWrite (FPath.pageFile d (i + 1)) [pg] fs) q hq
    simpa [writePages, fsWrite_files, hq (i + 1)] using this

lemma writePages_files_out (d : String) :
    ∀ (ps : List Page) (i k : Nat) (fs : FS), (k ≤ i ∨ i + ps.length < k) →
      (writePages d i ps fs).files (.pageFile d k) = fs.files (.pageFile d k) := by
  intro ps
  induction ps with
  | nil => intro i k fs _; rfl
  | cons pg rest ih =>
    intro i k fs h
    have hk : k ≠ i + 1 := by rcases h with h | h <;> [omega; (simp at h; omega)]
    have hrec : k ≤ i + 1 ∨ (i + 1) + rest.length < k := by
      rcases h with h | h
      · exact Or.inl (by omega)
      · right; simp at h; omega
    have := ih (i + 1) k (fsWrite (FPath.pageFile d (i + 1)) [pg] fs) hrec
    simpa [writePages, fsWrite_files, hk] using this

lemma writePages_files_get (d : String) :
    ∀ (ps : List Page) (j i : Nat) (fs : FS) (h : j < ps.length),
      (writePages d i ps fs).files (.pageFile d ((i + 1) + j)) = some [ps.get ⟨j, h⟩] := by
  intro ps
  induction ps with
  | nil => intro j i fs h; exact absurd h (by simp)
  | cons pg rest ih =>
    intro j i fs h
    cases j with
    | zero =>
      have hout : (writePages d (i + 1) rest
          (fsWrite (FPath.pageFile d (i + 1)) [pg] fs)).files (.pageFile d (i + 1)) =
          (fsWrite (FPath.pageFile d (i + 1)) [pg] fs).files (.pageFile d (i + 1)) :=
        writePages_files_out d rest (i + 1) (i + 1) _ (Or.inl le_rfl)
      simpa [writePages, fsWrite_files] using hout
    | succ j' =>
      have hsz : j' < rest.length := by simpa using Nat.lt_of_succ_lt_succ (by simpa using h)
      have e : (i + 1) + (j' + 1) = ((i + 1) + 1) + j' := by omega
      rw [show (writePages d i (pg :: rest) fs) =
        writePages d (i + 1) rest (fsWrite (FPath.pageFile d (i + 1)) [pg] fs) from rfl, e]
      simpa using ih j' (i + 1) (fsWrite (FPath.pageFile d (i + 1)) [pg] fs) hsz

lemma collectPages_cons (p : FPath) (ps : List FPath) (fs : FS) :
    collectPages (p :: ps) fs =
      (match fs.files p with | some d => d | none => []) ++ collectPages ps fs := by
  simp [collectPages]

lemma collectPages_append (ps qs : List FPath) (fs : FS) :
    collectPages (ps ++ qs) fs = collectPages ps fs ++ collectPages qs fs := by
  simp [collectPages]

lemma collectPages_pagePaths (d : String) :
    ∀ (rest : List Page) (i : Nat) (fs : FS),
      (∀ j (h : j < rest.length), fs.files (.pageFile d ((i + 1) + j)) = some [rest.get ⟨j, h⟩]) →
      collectPages (pagePaths d i rest.length) fs = rest := by
  intro rest
  induction rest with
  | nil => intro i fs _; simp [pagePaths, collectPages]
  | cons r rs ih =>
    intro i fs hf
    have h0 : fs.files (.pageFile d (i + 1)) = some [r] := by
      simpa using hf 0 (by simp)
    have htail : ∀ j (h : j < rs.length),
        fs.files (.pageFile d (((i + 1) + 1) + j)) = some [rs.get ⟨j, h⟩] := by
      intro j h
      have e : ((i + 1) + 1) + j = (i + 1) + (j + 1) := by omega
      rw [e]
      simpa using hf (j + 1) (by simpa using Nat.succ_lt_succ h)
    have : collectPages (pagePaths d (i + 1) rs.length) fs = rs := ih (i + 1) fs htail
    simp [pagePaths, collectPages_cons, h0, this]

lemma cleanupFiles_dirs : ∀ (ps : List FPath) (fs : FS), (cleanupFiles ps fs).dirs = fs.dirs := by
  intro ps
  induction ps with
  | nil => intro fs; rfl
  | cons p ps' ih =>
    intro fs
    show (cleanupFiles ps' (if fsExists p fs then fsRemove p fs else fs)).dirs = fs.dirs
    rw [ih]
    by_cases h : fsExists p fs <;> simp [h, fsRemove]

lemma cleanupFiles_files : ∀ (ps : List FPath) (fs : FS) (q : FPath),
    (cleanupFiles ps fs).files q = if q ∈ ps then none else fs.files q := by
  intro ps
  induction ps with
  | nil => intro fs q; simp [cleanupFiles]
  | cons p ps' ih =>
    intro fs q
    show (cleanupFiles ps' (if fsExists p fs then fsRemove p fs else fs)).files q = _
    rw [ih]
    by_cases hq : q ∈ ps'
    · simp [hq]
    · by_cases hqp : q = p
      · subst hqp
        simp only [hq, if_false, List.mem_cons, true_or, if_true]
        by_cases he : fsExists q fs
        · simp [he, fsRemove_files]
        · have : fs.files q = none := by
            simpa [fsExists, Option.not_isSome_iff_eq_none] using he
          simp [he, this]
      · have : q ∉ p :: ps' := by simp [hqp, hq]
        simp only [hq, if_false, this, if_false]
        by_cases he : fsExists p fs <;> simp [he, fsRemove_files, hqp]

lemma pagePaths_shape (d : String) :
    ∀ (n i : Nat) (p : FPath), p ∈ pagePaths d i n → ∃ k, p = .pageFile d k := by
  intro n
  induction n with
  | zero => intro i p hp; simp [pagePaths] at hp
  | succ m ih =>
    intro i p hp
    rcases (by simpa [pagePaths] using hp : p = FPath.pageFile d (i + 1) ∨ p ∈ pagePaths d (i + 1) m) with h | h
    · exact ⟨i + 1, h⟩
    · exact ih (i + 1) p h

lemma mem_pagePaths_iff (d : String) :
    ∀ (n i k : Nat), (FPath.pageFile d k ∈ pagePaths d i n) ↔ (i + 1 ≤ k ∧ k ≤ i + n) := by
  intro n
  induction n with
  | zero => intro i k; simp [pagePaths]; omega
  | succ m ih =>
    intro i k
    simp only [pagePaths, List.mem_cons, FPath.pageFile.injEq, ih (i + 1)]
    constructor
    · rintro (⟨-, h⟩ | ⟨h1, h2⟩) <;> omega
    · intro ⟨h1, h2⟩
      by_cases hk : k = i + 1
      · exact Or.inl ⟨trivial, hk⟩
      · exact Or.inr ⟨by omega, by omega⟩

lemma filledFile_not_mem_pagePaths (d d' : String) (n i k : Nat) :
    FPath.filledFile d k ∉ pagePaths d' i n := by
  intro h
  obtain ⟨k', e⟩ := pagePaths_shape d' n i _ h
  cases e

lemma named_not_mem_pagePaths (d d' nm : String) (n i : Nat) :
    FPath.named d nm ∉ pagePaths d' i n := by
  intro h
  obtain ⟨k', e⟩ := pagePaths_shape d' n i _ h
  cases e

lemma recordTry_threePlus (p1 p2 p3 : Page) (rest : List Page) (data : Record) (out : FPath) :
    recordTry out data (initFS (p1 :: p2 :: p3 :: rest)) =
      if ((initFS (p1 :: p2 :: p3 :: rest)).dirs.contains (parentDirOf out)) then
        (.ok (), cleanupFiles
          ((.pageFile uploadDir 1 :: .pageFile uploadDir 2 :: .pageFile uploadDir 3 ::
              pagePaths uploadDir 3 rest.length) ++
            ([.filledFile uploadDir 1, .pageFile uploadDir 2, .filledFile uploadDir 3] ++
              pagePaths uploadDir 3 rest.length))
          (fsWrite out
            (stampPage p1 (fillPageCalls data coords_p1) :: p2 ::
              stampPage p3 (fillPageCalls data coords_p3) :: rest)
            (fsWrite (.filledFile uploadDir 3) [stampPage p3 (fillPageCalls data coords_p3)]
              (fsWrite (.filledFile uploadDir 1) [stampPage p1 (fillPageCalls data coords_p1)]
                (writePages uploadDir 0 (p1 :: p2 :: p3 :: rest)
                  (initFS (p1 :: p2 :: p3 :: rest)))))))
      else
        (.error "save: no such file or directory",
          fsWrite (.filledFile uploadDir 3) [stampPage p3 (fillPageCalls data coords_p3)]
            (fsWrite (.filledFile uploadDir 1) [stampPage p1 (fillPageCalls data coords_p1)]
              (writePages uploadDir 0 (p1 :: p2 :: p3 :: rest)
                (initFS (p1 :: p2 :: p3 :: rest))))) := by
  have hopen0 : fitzOpen templatePath (initFS (p1 :: p2 :: p3 :: rest)) =
      .ok (p1 :: p2 :: p3 :: rest) := by
    simp [fitzOpen, initFS]
  have hdir0 : (initFS (p1 :: p2 :: p3 :: rest)).dirs.contains uploadDir = true := rfl
  have hsl := splitLoop_run uploadDir (p1 :: p2 :: p3 :: rest) 0
    (initFS (p1 :: p2 :: p3 :: rest)) hdir0
  have hsplit : split_pdf templatePath uploadDir (initFS (p1 :: p2 :: p3 :: rest)) =
      (.ok (.pageFile uploadDir 1 :: .pageFile uploadDir 2 :: .pageFile uploadDir 3 ::
          pagePaths uploadDir 3 rest.length),
        writePages uploadDir 0 (p1 :: p2 :: p3 :: rest)
          (initFS (p1 :: p2 :: p3 :: rest))) := by
    rw [split_pdf, hopen0]
    show splitLoop uploadDir (p1 :: p2 :: p3 :: rest) 0 (initFS (p1 :: p2 :: p3 :: rest)) = _
    rw [hsl]
    rfl
  -- the filesystem after the split
  set fs1 := writePages uploadDir 0 (p1 :: p2 :: p3 :: rest)
    (initFS (p1 :: p2 :: p3 :: rest)) with hfs1
  have hdirs1 : fs1.dirs = [uploadDir, completedDir] := by
    rw [hfs1, writePages_dirs]
    rfl
  have hopen1 : fs1.files (.pageFile uploadDir 1) = some [p1] := by
    rw [hfs1]
    simpa using writePages_files_get uploadDir (p1 :: p2 :: p3 :: rest) 0 0
      (initFS (p1 :: p2 :: p3 :: rest)) (by simp)
  have hfill1 : fill_page (.pageFile uploadDir 1) data coords_p1 fs1 =
      (.ok (.filledFile uploadDir 1),
        fsWrite (.filledFile uploadDir 1) [stampPage p1 (fillPageCalls data coords_p1)] fs1) := by
    have hsave : fitzSave (.filledFile uploadDir 1)
        [stampPage p1 (fillPageCalls data coords_p1)] fs1 =
        .ok (fsWrite (.filledFile uploadDir 1)
          [stampPage p1 (fillPageCalls data coords_p1)] fs1) := by
      simp [fitzSave, parentDirOf, hdirs1, uploadDir]
    simp [fill_page, fitzOpen, hopen1, replaceFilled, hsave]
  set fs2 := fsWrite (.filledFile uploadDir 1)
    [stampPage p1 (fillPageCalls data coords_p1)] fs1 with hfs2
  have hdirs2 : fs2.dirs = [uploadDir, completedDir] := by
    rw [hfs2, fsWrite_dirs, hdirs1]
  have hopen3 : fs2.files (.pageFile uploadDir 3) = some [p3] := by
    rw [hfs2, fsWrite_files, if_neg (by simp), hfs1]
    simpa using writePages_files_get uploadDir (p1 :: p2 :: p3 :: rest) 2 0
      (initFS (p1 :: p2 :: p3 :: rest)) (by simp)
  have hfill3 : fill_page (.pageFile uploadDir 3) data coords_p3 fs2 =
      (.ok (.filledFile uploadDir 3),
        fsWrite (.filledFile uploadDir 3) [stampPage p3 (fillPageCalls data coords_p3)] fs2) := by
    have hsave : fitzSave (.filledFile uploadDir 3)
        [stampPage p3 (fillPageCalls data coords_p3)] fs2 =
        .ok (fsWrite (.filledFile uploadDir 3)
          [stampPage p3 (fillPageCalls data coords_p3)] fs2) := by
      simp [fitzSave, parentDirOf, hdirs2, uploadDir]
    simp [fill_page, fitzOpen, hopen3, replaceFilled, hsave]
  set fs3 := fsWrite (.filledFile uploadDir 3)
    [stampPage p3 (fillPageCalls data coords_p3)] fs2 with hfs3
  have hdirs3 : fs3.dirs = [uploadDir, completedDir] := by
    rw [hfs3, fsWrite_dirs, hdirs2]
  -- the pages gathered by the merge
  have hcf1 : fs3.files (.filledFile uploadDir 1) =
      some [stampPage p1 (fillPageCalls data coords_p1)] := by
    rw [hfs3, fsWrite_files, if_neg (by simp), hfs2, fsWrite_files, if_pos rfl]
  have hcp2 : fs3.files (.pageFile uploadDir 2) = some [p2] := by
    rw [hfs3, fsWrite_files, if_neg (by simp), hfs2, fsWrite_files, if_neg (by simp), hfs1]
    simpa using writePages_files_get uploadDir (p1 :: p2 :: p3 :: rest) 1 0
      (initFS (p1 :: p2 :: p3 :: rest)) (by simp)
  have hcf3 : fs3.files (.filledFile uploadDir 3) =
      some [stampPage p3 (fillPageCalls data coords_p3)] := by
    rw [hfs3, fsWrite_files, if_pos rfl]
  have htail : ∀ j (h : j < rest.length),
      fs3.files (.pageFile uploadDir ((3 + 1) + j)) = some [rest.get ⟨j, h⟩] := by
    intro j h
    rw [hfs3, fsWrite_files, if_neg (by simp), hfs2, fsWrite_files, if_neg (by simp), hfs1]
    rw [show (3 + 1) + j = (0 + 1) + (j + 3) from by omega]
    have := writePages_files_get uploadDir (p1 :: p2 :: p3 :: rest) (j + 3) 0
      (initFS (p1 :: p2 :: p3 :: rest)) (by simp; omega)
    simpa using this
  have hcollect : collectPages
      ([.filledFile uploadDir 1, .pageFile uploadDir 2, .filledFile uploadDir 3] ++
        pagePaths uploadDir 3 rest.length) fs3 =
      stampPage p1 (fillPageCalls data coords_p1) :: p2 ::
        stampPage p3 (fillPageCalls data coords_p3) :: rest := by
    rw [collectPages_append]
    rw [collectPages_pagePaths uploadDir rest 3 fs3 htail]
    simp [collectPages_cons, hcf1, hcp2, hcf3, collectPages]
  by_cases hout : (initFS (p1 :: p2 :: p3 :: rest)).dirs.contains (parentDirOf out) = true
  · have hmem : parentDirOf out ∈ ([uploadDir, completedDir] : List String) := by
      simpa [initFS] using hout
    have hsave : fitzSave out
        (collectPages
          ([.filledFile uploadDir 1, .pageFile uploadDir 2, .filledFile uploadDir 3] ++
            pagePaths uploadDir 3 rest.length) fs3) fs3 =
        .ok (fsWrite out
          (stampPage p1 (fillPageCalls data coords_p1) :: p2 ::
            stampPage p3 (fillPageCalls data coords_p3) :: rest) fs3) := by
      rw [hcollect, fitzSave, if_neg (by simp), if_pos (by rw [hdirs3]; simpa using hmem)]
    rw [if_pos hout]
    simp only [recordTry, hsplit, hfill1, hfill3, mergeAndClean, merge_pdfs, hsave]
  · have hmem : parentDirOf out ∉ ([uploadDir, completedDir] : List String) := by
      intro hc
      exact hout (by simpa [initFS] using hc)
    have hsave : fitzSave out
        (collectPages
          ([.filledFile uploadDir 1, .pageFile uploadDir 2, .filledFile uploadDir 3] ++
            pagePaths uploadDir 3 rest.length) fs3) fs3 =
        .error "save: no such file or directory" := by
      rw [hcollect, fitzSave, if_neg (by simp), if_neg (by rw [hdirs3]; simpa using hmem)]
    rw [if_neg hout]
    simp only [recordTry, hsplit, hfill1, hfill3, mergeAndClean, merge_pdfs, hsave]

lemma recordTry_zero (data : Record) (out : FPath) :
    recordTry out data (initFS []) =
      (.error "cannot save with zero pages", initFS []) := by
  have hopen : fitzOpen templatePath (initFS ([] : Doc)) = .ok [] := rfl
  have hs : fitzSave out ([] : Doc) (initFS []) =
      .error "cannot save with zero pages" := rfl
  simp only [recordTry, split_pdf, hopen, splitLoop, mergeAndClean, merge_pdfs,
    collectPages, List.flatMap_nil, hs]

lemma recordTry_one (q1 : Page) (data : Record) (out : FPath) :
    recordTry out data (initFS [q1]) =
      if (initFS [q1]).dirs.contains (parentDirOf out) then
        (.ok (), cleanupFiles ([.pageFile uploadDir 1] ++ [.filledFile uploadDir 1])
          (fsWrite out [stampPage q1 (fillPageCalls data coords_p1)]
            (fsWrite (.filledFile uploadDir 1) [stampPage q1 (fillPageCalls data coords_p1)]
              (writePages uploadDir 0 [q1] (initFS [q1])))))
      else
        (.error "save: no such file or directory",
          fsWrite (.filledFile uploadDir 1) [stampPage q1 (fillPageCalls data coords_p1)]
            (writePages uploadDir 0 [q1] (initFS [q1]))) := by
  have hopen0 : fitzOpen templatePath (initFS [q1]) = .ok [q1] := by
    simp [fitzOpen, initFS]
  have hdir0 : (initFS [q1]).dirs.contains uploadDir = true := rfl
  have hsl := splitLoop_run uploadDir [q1] 0 (initFS [q1]) hdir0
  have hsplit : split_pdf templatePath uploadDir (initFS [q1]) =
      (.ok [.pageFile uploadDir 1], writePages uploadDir 0 [q1] (initFS [q1])) := by
    rw [split_pdf, hopen0]
    show splitLoop uploadDir [q1] 0 (initFS [q1]) = _
    rw [hsl]
    rfl
  set fs1 := writePages uploadDir 0 [q1] (initFS [q1]) with hfs1
  have hdirs1 : fs1.dirs = [uploadDir, completedDir] := by
    rw [hfs1, writePages_dirs]
    rfl
  have hopen1 : fs1.files (.pageFile uploadDir 1) = some [q1] := by
    rw [hfs1]
    simpa using writePages_files_get uploadDir [q1] 0 0 (initFS [q1]) (by simp)
  have hfill1 : fill_page (.pageFile uploadDir 1) data coords_p1 fs1 =
      (.ok (.filledFile uploadDir 1),
        fsWrite (.filledFile uploadDir 1) [stampPage q1 (fillPageCalls data coords_p1)] fs1) := by
    have hsave : fitzSave (.filledFile uploadDir 1)
        [stampPage q1 (fillPageCalls data coords_p1)] fs1 =
        .ok (fsWrite (.filledFile uploadDir 1)
          [stampPage q1 (fillPageCalls data coords_p1)] fs1) := by
      simp [fitzSave, parentDirOf, hdirs1, uploadDir]
    simp [fill_page, fitzOpen, hopen1, replaceFilled, hsave]
  set fs2 := fsWrite (.filledFile uploadDir 1)
    [stampPage q1 (fillPageCalls data coords_p1)] fs1 with hfs2
  have hdirs2 : fs2.dirs = [uploadDir, completedDir] := by
    rw [hfs2, fsWrite_dirs, hdirs1]
  have hcf1 : fs2.files (.filledFile uploadDir 1) =
      some [stampPage q1 (fillPageCalls data coords_p1)] := by
    rw [hfs2, fsWrite_files, if_pos rfl]
  have hcollect : collectPages [FPath.filledFile uploadDir 1] fs2 =
      [stampPage q1 (fillPageCalls data coords_p1)] := by
    simp [collectPages, hcf1]
  by_cases hout : (initFS [q1]).dirs.contains (parentDirOf out) = true
  · have hmem : parentDirOf out ∈ ([uploadDir, completedDir] : List String) := by
      simpa [initFS] using hout
    have hsave : fitzSave out (collectPages [FPath.filledFile uploadDir 1] fs2) fs2 =
        .ok (fsWrite out [stampPage q1 (fillPageCalls data coords_p1)] fs2) := by
      rw [hcollect, fitzSave, if_neg (by simp), if_pos (by rw [hdirs2]; simpa using hmem)]
    rw [if_pos hout]
    simp only [recordTry, hsplit, hfill1, mergeAndClean, merge_pdfs, hsave]
  · have hmem : parentDirOf out ∉ ([uploadDir, completedDir] : List String) := by
      intro hc
      exact hout (by simpa [initFS] using hc)
    have hsave : fitzSave out (collectPages [FPath.filledFile uploadDir 1] fs2) fs2 =
        .error "save: no such file or directory" := by
      rw [hcollect, fitzSave, if_neg (by simp), if_neg (by rw [hdirs2]; simpa using hmem)]
    rw [if_neg hout]
    simp only [recordTry, hsplit, hfill1, mergeAndClean, merge_pdfs, hsave]

lemma recordTry_two (q1 q2 : Page) (data : Record) (out : FPath) :
    recordTry out data (initFS [q1, q2]) =
      if (initFS [q1, q2]).dirs.contains (parentDirOf out) then
        (.ok (), cleanupFiles
          ([.pageFile uploadDir 1, .pageFile uploadDir 2] ++
            [.filledFile uploadDir 1, .pageFile uploadDir 2])
          (fsWrite out [stampPage q1 (fillPageCalls data coords_p1), q2]
            (fsWrite (.filledFile uploadDir 1) [stampPage q1 (fillPageCalls data coords_p1)]
              (writePages uploadDir 0 [q1, q2] (initFS [q1, q2])))))
      else
        (.error "save: no such file or directory",
          fsWrite (.filledFile uploadDir 1) [stampPage q1 (fillPageCalls data coords_p1)]
            (writePages uploadDir 0 [q1, q2] (initFS [q1, q2]))) := by
  have hopen0 : fitzOpen templatePath (initFS [q1, q2]) = .ok [q1, q2] := by
    simp [fitzOpen, initFS]
  have hdir0 : (initFS [q1, q2]).dirs.contains uploadDir = true := rfl
  have hsl := splitLoop_run uploadDir [q1, q2] 0 (initFS [q1, q2]) hdir0
  have hsplit : split_pdf templatePath uploadDir (initFS [q1, q2]) =
      (.ok [.pageFile uploadDir 1, .pageFile uploadDir 2],
        writePages uploadDir 0 [q1, q2] (initFS [q1, q2])) := by
    rw [split_pdf, hopen0]
    show splitLoop uploadDir [q1, q2] 0 (initFS [q1, q2]) = _
    rw [hsl]
    rfl
  set fs1 := writePages uploadDir 0 [q1, q2] (initFS [q1, q2]) with hfs1
  have hdirs1 : fs1.dirs = [uploadDir, completedDir] := by
    rw [hfs1, writePages_dirs]
    rfl
  have hopen1 : fs1.files (.pageFile uploadDir 1) = some [q1] := by
    rw [hfs1]
    simpa using writePages_files_get uploadDir [q1, q2] 0 0 (initFS [q1, q2]) (by simp)
  have hfill1 : fill_page (.pageFile uploadDir 1) data coords_p1 fs1 =
      (.ok (.filledFile uploadDir 1),
        fsWrite (.filledFile uploadDir 1) [stampPage q1 (fillPageCalls data coords_p1)] fs1) := by
    have hsave : fitzSave (.filledFile uploadDir 1)
        [stampPage q1 (fillPageCalls data coords_p1)] fs1 =
        .ok (fsWrite (.filledFile uploadDir 1)
          [stampPage q1 (fillPageCalls data coords_p1)] fs1) := by
      simp [fitzSave, parentDirOf, hdirs1, uploadDir]
    simp [fill_page, fitzOpen, hopen1, replaceFilled, hsave]
  set fs2 := fsWrite (.filledFile uploadDir 1)
    [stampPage q1 (fillPageCalls data coords_p1)] fs1 with hfs2
  have hdirs2 : fs2.dirs = [uploadDir, completedDir] := by
    rw [hfs2, fsWrite_dirs, hdirs1]
  have hcf1 : fs2.files (.filledFile uploadDir 1) =
      some [stampPage q1 (fillPageCalls data coords_p1)] := by
    rw [hfs2, fsWrite_files, if_pos rfl]
  have hcp2 : fs2.files (.pageFile uploadDir 2) = some [q2] := by
    rw [hfs2, fsWrite_files, if_neg (by simp), hfs1]
    simpa using writePages_files_get uploadDir [q1, q2] 1 0 (initFS [q1, q2]) (by simp)
  have hcollect : collectPages [FPath.filledFile uploadDir 1, FPath.pageFile uploadDir 2] fs2 =
      [stampPage q1 (fillPageCalls data coords_p1), q2] := by
    simp [collectPages, hcf1, hcp2]
  by_cases hout : (initFS [q1, q2]).dirs.contains (parentDirOf out) = true
  · have hmem : parentDirOf out ∈ ([uploadDir, completedDir] : List String) := by
      simpa [initFS] using hout
    have hsave : fitzSave out
        (collectPages [FPath.filledFile uploadDir 1, FPath.pageFile uploadDir 2] fs2) fs2 =
        .ok (fsWrite out [stampPage q1 (fillPageCalls data coords_p1), q2] fs2) := by
      rw [hcollect, fitzSave, if_neg (by simp), if_pos (by rw [hdirs2]; simpa using hmem)]
    rw [if_pos hout]
    simp only [recordTry, hsplit, hfill1, mergeAndClean, merge_pdfs, hsave]
  · have hmem : parentDirOf out ∉ ([uploadDir, completedDir] : List String) := by
      intro hc
      exact hout (by simpa [initFS] using hc)
    have hsave : fitzSave out
        (collectPages [FPath.filledFile uploadDir 1, FPath.pageFile uploadDir 2] fs2) fs2 =
        .error "save: no such file or directory" := by
      rw [hcollect, fitzSave, if_neg (by simp), if_neg (by rw [hdirs2]; simpa using hmem)]
    rw [if_neg hout]
    simp only [recordTry, hsplit, hfill1, mergeAndClean, merge_pdfs, hsave]

lemma processRows_stats : ∀ (rows : List Record) (i : Nat) (st : BatchState),
    (processRows i rows st).log.length = st.log.length + rows.length ∧
    (processRows i rows st).generated.length =
      st.generated.length + (successFlags rows st.fs).count true := by
  intro rows
  induction rows with
  | nil => intro i st; simp [processRows, successFlags]
  | cons row rest ih =>
    intro i st
    rcases h : recordTry (outPdfPath row) row st.fs with ⟨res, fs'⟩
    cases res with
    | ok u =>
      have hpr : processRows i (row :: rest) st =
          processRows (i + 1) rest
            { fs := fs', log := st.log ++ [successLine i row],
              generated := st.generated ++ [outPdfPath row] } := by
        simp only [processRows, processRow, h]
      have hsf : successFlags (row :: rest) st.fs = true :: successFlags rest fs' := by
        simp only [successFlags, h]
      have hih := ih (i + 1)
        { fs := fs', log := st.log ++ [successLine i row],
          generated := st.generated ++ [outPdfPath row] }
      rw [hpr, hsf]
      constructor
      · rw [hih.1]; simp; omega
      · rw [hih.2]; simp [List.count_cons]; omega
    | error e =>
      have hpr : processRows i (row :: rest) st =
          processRows (i + 1) rest
            { fs := fs', log := st.log ++ [errorLine i row e],
              generated := st.generated } := by
        simp only [processRows, processRow, h]
      have hsf : successFlags (row :: rest) st.fs = false :: successFlags rest fs' := by
        simp only [successFlags, h]
      have hih := ih (i + 1)
        { fs := fs', log := st.log ++ [errorLine i row e], generated := st.generated }
      rw [hpr, hsf]
      constructor
      · rw [hih.1]; simp; omega
      · rw [hih.2]; simp [List.count_cons]

lemma batchFinal_log_length (tpl : Doc) (fname : String) (rows : List Record) :
    (batchFinal tpl fname rows).log.length = rows.length + 5 := by
  have := (processRows_stats rows 0
    { fs := initFS tpl, log := headerLog fname, generated := [] }).1
  simp only [batchFinal, List.length_append]
  rw [this]
  simp [headerLog]
  omega

lemma batchFinal_generated_length (tpl : Doc) (fname : String) (rows : List Record) :
    (batchFinal tpl fname rows).generated.length =
      (successFlags rows (initFS tpl)).count true := by
  have := (processRows_stats rows 0
    { fs := initFS tpl, log := headerLog fname, generated := [] }).2
  simpa [batchFinal] using this

lemma batchResult_archive (tpl : Doc) (fname : String) (rows : List Record) :
    batchResult tpl fname rows =
      .archive ((batchFinal tpl fname rows).generated.map baseName ++
          ["processing_report.txt"])
        (batchFinal tpl fname rows).log := by
  rw [batchResult]
  rw [if_neg]
  rintro ⟨-, hlen⟩
  rw [batchFinal_log_length] at hlen
  omega

lemma lookup_filter_self : ∀ (l : Record) (field : String),
    (l.filter (fun e => e.1 != field)).lookup field = none := by
  intro l
  induction l with
  | nil => intro field; rfl
  | cons kv rest ih =>
    intro field
    by_cases hk : kv.1 = field
    · simp [List.filter, hk, ih]
    · simp only [List.filter_cons]
      rw [if_pos (by simpa using hk)]
      simp [List.lookup, ih, Ne.symm hk, beq_false_of_ne (Ne.symm hk)]

lemma lookup_filter_ne : ∀ (l : Record) (g field : String), g ≠ field →
    (l.filter (fun e => e.1 != field)).lookup g = l.lookup g := by
  intro l
  induction l with
  | nil => intro g field _; rfl
  | cons kv rest ih =>
    intro g field hg
    by_cases hk : kv.1 = field
    · have hgk : (g == kv.1) = false := beq_false_of_ne (by rw [hk]; exact hg)
      simp only [List.filter_cons]
      rw [if_neg (by simpa using hk)]
      simp [List.lookup, hgk, ih _ _ hg]
    · simp only [List.filter_cons]
      rw [if_pos (by simpa using hk)]
      simp only [List.lookup]
      cases hgk : g == kv.1 with
      | true => rfl
      | false => exact ih _ _ hg

lemma fillPageCalls_sources : ∀ (coordinates : List (String × Coord)) (data : Record)
    (pr : (Nat × Nat) × String), pr ∈ fillPageCalls data coordinates →
    ∃ g v, data.lookup g = some v ∧ pd_notna v = true ∧ pr.2 = pyStr v := by
  intro coordinates data pr hpr
  rw [fillPageCalls] at hpr
  obtain ⟨fc, -, hmem⟩ := List.mem_flatMap.mp hpr
  rcases hl : data.lookup fc.1 with _ | v
  · rw [hl] at hmem
    simp at hmem
  · rw [hl] at hmem
    by_cases hna : pd_notna v = true
    · have hmem' : pr ∈ List.map (fun p => ((p.1, p.2 + 5), pyStr v)) (coordPoints fc.2) := by
        simpa [hna] using hmem
      obtain ⟨pt, -, hpt⟩ := List.mem_map.mp hmem'
      exact ⟨fc.1, v, hl, hna, by rw [← hpt]⟩
    · simp [hna] at hmem

lemma fillPageCalls_erase_absent : ∀ (coordinates : List (String × Coord)) (data : Record)
    (field : String),
    (data.lookup field = none ∨ data.lookup field = some Value.vnan) →
    fillPageCalls data coordinates =
      fillPageCalls (data.filter (fun e => e.1 != field)) coordinates := by
  intro coordinates
  induction coordinates with
  | nil => intro data field _; rfl
  | cons fc rest ih =>
    intro data field habs
    have htail := ih data field habs
    have hhead : (match data.lookup fc.1 with
        | some v =>
          if pd_notna v = true then
            (coordPoints fc.2).map (fun p : Nat × Nat => ((p.1, p.2 + 5), pyStr v))
          else []
        | none => ([] : List ((Nat × Nat) × String))) =
        (match (data.filter (fun e => e.1 != field)).lookup fc.1 with
        | some v =>
          if pd_notna v = true then
            (coordPoints fc.2).map (fun p : Nat × Nat => ((p.1, p.2 + 5), pyStr v))
          else []
        | none => ([] : List ((Nat × Nat) × String))) := by
      by_cases hf : fc.1 = field
      · rw [hf, lookup_filter_self]
        rcases habs with h | h
        · rw [h]
        · rw [h]
          rfl
      · rw [lookup_filter_ne data fc.1 field hf]
    have e1 : fillPageCalls data (fc :: rest) =
        (match data.lookup fc.1 with
        | some v =>
          if pd_notna v = true then
            (coordPoints fc.2).map (fun p : Nat × Nat => ((p.1, p.2 + 5), pyStr v))
          else []
        | none => ([] : List ((Nat × Nat) × String))) ++ fillPageCalls data rest := by
      rw [fillPageCalls, List.flatMap_cons]
      rfl
    have e2 : fillPageCalls (data.filter (fun e => e.1 != field)) (fc :: rest) =
        (match (data.filter (fun e => e.1 != field)).lookup fc.1 with
        | some v =>
          if pd_notna v = true then
            (coordPoints fc.2).map (fun p : Nat × Nat => ((p.1, p.2 + 5), pyStr v))
          else []
        | none => ([] : List ((Nat × Nat) × String))) ++
          fillPageCalls (data.filter (fun e => e.1 != field)) rest := by
      rw [fillPageCalls, List.flatMap_cons]
      rfl
    rw [e1, e2, hhead, htail]

/-- C1: any exception raised in a record's split/stamp/merge `try` block
    is caught; an ERROR line consisting of the row identifier and the
    error detail is appended to the report log, the generated-files list
    is unchanged, and the loop continues with the remaining records, so
    a failing record never aborts the batch. -/
theorem c1_record_failure_isolated :
    ∀ (index : Nat) (data : Record) (rest : List Record) (st : BatchState)
      (e : String) (fs1 : FS),
      recordTry (outPdfPath data) data st.fs = (.error e, fs1) →
      processRows index (data :: rest) st =
        processRows (index + 1) rest
          { fs := fs1, log := st.log ++ [errorLine index data e],
            generated := st.generated } ∧
      errorLine index data e =
        "ERROR: " ++ rowIdentifier index data ++
          " - An unexpected error occurred: " ++ e := by
  intro index data rest st e fs1 h
  constructor
  · simp only [processRows, processRow, h]
  · rfl

/-- C1 witness: a record whose output name contains a path separator
    makes the merge save raise; the loop logs the ERROR line and
    continues. -/
theorem c1_record_failure_isolated_witness :
    processRows 0 [[("lastname", Value.vstr "a/b")]]
        { fs := initFS [⟨0, []⟩], log := [], generated := [] } =
      processRows 1 []
        { fs := (recordTry (outPdfPath [("lastname", Value.vstr "a/b")])
            [("lastname", Value.vstr "a/b")] (initFS [⟨0, []⟩])).2,
          log := [errorLine 0 [("lastname", Value.vstr "a/b")]
            "save: no such file or directory"],
          generated := [] } ∧
    errorLine 0 [("lastname", Value.vstr "a/b")] "save: no such file or directory" =
      "ERROR: " ++ rowIdentifier 0 [("lastname", Value.vstr "a/b")] ++
        " - An unexpected error occurred: " ++ "save: no such file or directory" :=
  c1_record_failure_isolated 0 [("lastname", Value.vstr "a/b")] []
    { fs := initFS [⟨0, []⟩], log := [], generated := [] }
    "save: no such file or directory"
    (recordTry (outPdfPath [("lastname", Value.vstr "a/b")])
      [("lastname", Value.vstr "a/b")] (initFS [⟨0, []⟩])).2 (by rfl)

/-- C2: a field whose value is absent (key missing or NaN) contributes no
    `insert_text` call: the calls equal those for the record with the
    field removed; moreover every rendered text is the string of a
    present, non-NaN value, so the text `"nan"` can only appear if the
    record literally holds the string `"nan"` (never from a NaN value). -/
theorem c2_absent_fields_skipped :
    ∀ (data : Record) (coordinates : List (String × Coord)) (field : String),
      (data.lookup field = none ∨ data.lookup field = some Value.vnan) →
      fillPageCalls data coordinates =
        fillPageCalls (data.filter (fun e => e.1 != field)) coordinates ∧
      (∀ pr ∈ fillPageCalls data coordinates,
        ∃ g v, data.lookup g = some v ∧ pd_notna v = true ∧ pr.2 = pyStr v) ∧
      (∀ pr ∈ fillPageCalls data coordinates, pr.2 = "nan" →
        ∃ g, data.lookup g = some (Value.vstr "nan")) := by
  intro data coordinates field habs
  refine ⟨fillPageCalls_erase_absent coordinates data field habs,
    fillPageCalls_sources coordinates data, ?_⟩
  intro pr hpr hnan
  obtain ⟨g, v, hg, hna, hv⟩ := fillPageCalls_sources coordinates data pr hpr
  cases v with
  | vstr s =>
    have hv' : pr.2 = s := hv
    have hs : s = "nan" := by rw [← hv', hnan]
    exact ⟨g, by rwa [show Value.vstr s = Value.vstr "nan" from by rw [hs]] at hg⟩
  | vnan => simp [pd_notna] at hna

/-- C2 witness: a record with a NaN Medicare number stamps exactly as the
    record without that field. -/
theorem c2_absent_fields_skipped_witness :
    fillPageCalls [("mc", Value.vnan), ("wt", Value.vstr "70")] coords_p1 =
      fillPageCalls ([("mc", Value.vnan), ("wt", Value.vstr "70")].filter
        (fun e => e.1 != "mc")) coords_p1 ∧
    (∀ pr ∈ fillPageCalls [("mc", Value.vnan), ("wt", Value.vstr "70")] coords_p1,
      ∃ g v, ([("mc", Value.vnan), ("wt", Value.vstr "70")] : Record).lookup g = some v ∧
        pd_notna v = true ∧ pr.2 = pyStr v) ∧
    (∀ pr ∈ fillPageCalls [("mc", Value.vnan), ("wt", Value.vstr "70")] coords_p1,
      pr.2 = "nan" →
      ∃ g, ([("mc", Value.vnan), ("wt", Value.vstr "70")] : Record).lookup g =
        some (Value.vstr "nan")) :=
  c2_absent_fields_skipped [("mc", Value.vnan), ("wt", Value.vstr "70")] coords_p1 "mc"
    (Or.inr rfl)

/-- C3 (code bug): the empty-batch guard `len(processing_log) <= 4` is
    tested after the footer entry was appended, so the log always has at
    least 5 entries and the guard can never fire: no input ever yields
    the empty-batch signal, and a zero-row data file produces an archive
    containing only the report. -/
theorem c3_zero_rows_returns_archive :
    ∀ (tpl : Doc) (fname : String) (rows : List Record),
      batchResult tpl fname rows ≠ .emptyBatch ∧
      batchResult tpl fname [] =
        .archive ["processing_report.txt"] (headerLog fname ++ [footerLine]) := by
  intro tpl fname rows
  constructor
  · rw [batchResult_archive]
    simp
  · rw [batchResult_archive]
    simp [batchFinal, processRows]

/-- C4 counterexample: a data file with extension `.txt` (neither CSV nor
    a recognized spreadsheet extension) is not rejected before parsing:
    the code hands it to the spreadsheet reader (`chooseParser` has no
    unsupported-format branch, unlike the spec-modelled
    `specReaderChoice`), and when that parse succeeds (e.g. valid xlsx
    content under a `.txt` name) the records are processed and an
    archive is returned. -/
theorem c4_counterexample :
    process_files ".txt" (.ok []) (.ok [[("lastname", Value.vstr "A")]]) [⟨0, []⟩] "d.txt" =
      .ok (.archive ["A_unknown_firstname_CDAI.pdf", "processing_report.txt"]
        (headerLog "d.txt" ++
          ["SUCCESS: Row 2 (Patient:  A) -> Generated A_unknown_firstname_CDAI.pdf",
            footerLine])) ∧
    specReaderChoice ".txt" = none ∧ chooseParser ".txt" = ParserKind.excel := by
  refine ⟨?_, rfl, rfl⟩
  rfl

/-- C4 (amended): every non-`.csv` extension is dispatched to the
    spreadsheet reader, which attempts the parse; there is no
    extension-based rejection, and a spreadsheet-reader exception aborts
    the whole request (before any record is processed) with the reader's
    own error. -/
theorem c4_non_csv_goes_to_excel :
    ∀ (ext : String) (csvParse excelParse : Except String (List Record))
      (tpl : Doc) (fname m : String), ext ≠ ".csv" →
      read_tabular ext csvParse excelParse = excelParse ∧
      (excelParse = .error m →
        process_files ext csvParse excelParse tpl fname = .error m) := by
  intro ext c e tpl fname m h
  constructor
  · simp [read_tabular, chooseParser, h]
  · intro he
    simp [process_files, read_tabular, chooseParser, h, he]

/-- C4 witness: a `.txt` file whose content the spreadsheet reader
    rejects aborts the request with the reader's error. -/
theorem c4_non_csv_goes_to_excel_witness :
    read_tabular ".txt" (.ok [])
        (.error "Excel file format cannot be determined") =
      .error "Excel file format cannot be determined" ∧
    ((.error "Excel file format cannot be determined" :
        Except String (List Record)) =
        .error "Excel file format cannot be determined" →
      process_files ".txt" (.ok []) (.error "Excel file format cannot be determined")
        [] "d.txt" = .error "Excel file format cannot be determined") :=
  c4_non_csv_goes_to_excel ".txt" (.ok [])
    (.error "Excel file format cannot be determined") [] "d.txt"
    "Excel file format cannot be determined" (by decide)

/-- C6 counterexample: merging an empty sequence of page documents does
    not succeed: saving the zero-page merged document raises PyMuPDF's
    `ValueError("cannot save with zero pages")`, and no output file (of
    zero pages or otherwise) is written. -/
theorem c6_counterexample :
    merge_pdfs (.named completedDir "out.pdf") [] (initFS []) =
      (.error "cannot save with zero pages", initFS []) ∧
    (initFS []).files (.named completedDir "out.pdf") = none :=
  ⟨rfl, rfl⟩

/-- C6 (amended): merging an empty sequence of page documents collects
    no pages and then raises on saving the zero-page document (PyMuPDF
    refuses to save a document with no pages), leaving the filesystem
    unchanged; inside the batch loop this exception is caught as that
    record's per-record error. -/
theorem c6_merge_empty_raises :
    ∀ (fs : FS) (p : FPath),
      merge_pdfs p [] fs = (.error "cannot save with zero pages", fs) := by
  intro fs p
  have hs : fitzSave p (collectPages [] fs) fs =
      .error "cannot save with zero pages" := rfl
  simp only [merge_pdfs, hs]

/-- C7: the batch always returns the archive whose entries are the
    generated files plus the report; the number of generated documents
    equals the number of records whose `try` block completed without an
    exception; and the report has one entry per input record plus the
    4 header entries and 1 footer entry. -/
theorem c7_archive_report_counts :
    ∀ (tpl : Doc) (fname : String) (rows : List Record),
      batchResult tpl fname rows =
        .archive ((batchFinal tpl fname rows).generated.map baseName ++
            ["processing_report.txt"])
          (batchFinal tpl fname rows).log ∧
      (batchFinal tpl fname rows).generated.length =
        (successFlags rows (initFS tpl)).count true ∧
      (batchFinal tpl fname rows).log.length = rows.length + 5 :=
  fun tpl fname rows =>
    ⟨batchResult_archive tpl fname rows, batchFinal_generated_length tpl fname rows,
      batchFinal_log_length tpl fname rows⟩

/-- C10: a record with no lastname and no firstname key is identified in
    the report by the placeholder patient name `" N/A"` (empty firstname,
    `N/A` lastname), while its output file uses the different
    placeholders `unknown_lastname`/`unknown_firstname`, so report and
    archive identify the same record by different names. -/
theorem c10_report_vs_filename_placeholders :
    ∀ (index : Nat) (data : Record),
      data.lookup "lastname" = none → data.lookup "firstname" = none →
      patientName data = " N/A" ∧
      rowIdentifier index data =
        "Row " ++ toString (index + 2) ++ " (Patient: " ++ patientName data ++ ")" ∧
      outFilename data = "unknown_lastname_unknown_firstname_CDAI.pdf" := by
  intro index data h1 h2
  refine ⟨?_, rfl, ?_⟩
  · rw [patientName, dictGet, dictGet, h1, h2]
    decide
  · rw [outFilename, dictGet, dictGet, h1, h2]
    decide

/-- C10 witness: the empty record. -/
theorem c10_report_vs_filename_placeholders_witness :
    patientName [] = " N/A" ∧
    rowIdentifier 0 [] =
      "Row " ++ toString (0 + 2) ++ " (Patient: " ++ patientName [] ++ ")" ∧
    outFilename [] = "unknown_lastname_unknown_firstname_CDAI.pdf" :=
  c10_report_vs_filename_placeholders 0 [] rfl rfl

/-- C9 counterexample: a record whose lastname cell is NaN (the field is
    present but its value absent) does not fall back to the placeholder:
    `dict.get` returns the NaN itself, so the output file is named with a
    literal `nan` component. -/
theorem c9_counterexample :
    outFilename [("lastname", Value.vnan), ("firstname", Value.vstr "John")] =
      "nan_John_CDAI.pdf" ∧
    ("nan_John_CDAI.pdf" : String) ≠ "unknown_lastname_John_CDAI.pdf" := by
  exact ⟨rfl, by decide⟩

/-- C9 (amended): the output document is named
    `{lastname}_{firstname}_CDAI.pdf`; the placeholder components
    `unknown_lastname`/`unknown_firstname` are used only when the key is
    entirely missing from the record, while a present-but-NaN name
    renders as the literal text `nan`; when the record's `try` block
    succeeds, a SUCCESS line naming the generated file is logged and the
    output path is added to the generated files. -/
theorem c9_naming_and_success :
    ∀ (index : Nat) (data : Record) (rest : List Record) (st : BatchState) (fs1 : FS),
      recordTry (outPdfPath data) data st.fs = (.ok (), fs1) →
      processRows index (data :: rest) st =
        processRows (index + 1) rest
          { fs := fs1, log := st.log ++ [successLine index data],
            generated := st.generated ++ [outPdfPath data] } ∧
      successLine index data =
        "SUCCESS: " ++ rowIdentifier index data ++ " -> Generated " ++ outFilename data ∧
      outFilename data =
        dictGet data "lastname" "unknown_lastname" ++ "_" ++
          dictGet data "firstname" "unknown_firstname" ++ "_CDAI.pdf" ∧
      (data.lookup "lastname" = none →
        dictGet data "lastname" "unknown_lastname" = "unknown_lastname") ∧
      (data.lookup "lastname" = some Value.vnan →
        dictGet data "lastname" "unknown_lastname" = "nan") := by
  intro index data rest st fs1 h
  refine ⟨?_, rfl, rfl, ?_, ?_⟩
  · simp only [processRows, processRow, h]
  · intro hl
    rw [dictGet, hl]
  · intro hl
    rw [dictGet, hl]
    rfl

/-- C9 witness: a record with only a lastname, processed against a
    one-page template, succeeds and is logged as generated. -/
theorem c9_naming_and_success_witness :
    processRows 0 [[("lastname", Value.vstr "A")]]
        { fs := initFS [⟨0, []⟩], log := [], generated := [] } =
      processRows 1 []
        { fs := (recordTry (outPdfPath [("lastname", Value.vstr "A")])
            [("lastname", Value.vstr "A")] (initFS [⟨0, []⟩])).2,
          log := [successLine 0 [("lastname", Value.vstr "A")]],
          generated := [outPdfPath [("lastname", Value.vstr "A")]] } ∧
    successLine 0 [("lastname", Value.vstr "A")] =
      "SUCCESS: " ++ rowIdentifier 0 [("lastname", Value.vstr "A")] ++
        " -> Generated " ++ outFilename [("lastname", Value.vstr "A")] ∧
    outFilename [("lastname", Value.vstr "A")] =
      dictGet [("lastname", Value.vstr "A")] "lastname" "unknown_lastname" ++ "_" ++
        dictGet [("lastname", Value.vstr "A")] "firstname" "unknown_firstname" ++
        "_CDAI.pdf" ∧
    (([("lastname", Value.vstr "A")] : Record).lookup "lastname" = none →
      dictGet [("lastname", Value.vstr "A")] "lastname" "unknown_lastname" =
        "unknown_lastname") ∧
    (([("lastname", Value.vstr "A")] : Record).lookup "lastname" = some Value.vnan →
      dictGet [("lastname", Value.vstr "A")] "lastname" "unknown_lastname" = "nan") :=
  c9_naming_and_success 0 [("lastname", Value.vstr "A")] []
    { fs := initFS [⟨0, []⟩], log := [], generated := [] }
    (recordTry (outPdfPath [("lastname", Value.vstr "A")])
      [("lastname", Value.vstr "A")] (initFS [⟨0, []⟩])).2 (by rfl)

lemma initFS_files_pageFile (tpl : Doc) (d : String) (k : Nat) :
    (initFS tpl).files (.pageFile d k) = none := by
  simp [initFS, templatePath]

lemma initFS_files_filledFile (tpl : Doc) (d : String) (k : Nat) :
    (initFS tpl).files (.filledFile d k) = none := by
  simp [initFS, templatePath]

lemma writePages_init_pageFile_none (tpl tpl' : Doc) (k : Nat)
    (h : k = 0 ∨ tpl.length < k) :
    (writePages uploadDir 0 tpl (initFS tpl')).files (.pageFile uploadDir k) = none := by
  rw [writePages_files_out uploadDir tpl 0 k _ (by omega)]
  exact initFS_files_pageFile tpl' uploadDir k

lemma writePages_init_filledFile_none (tpl tpl' : Doc) (k : Nat) :
    (writePages uploadDir 0 tpl (initFS tpl')).files (.filledFile uploadDir k) = none := by
  rw [writePages_files_ne uploadDir tpl 0 _ _ (by intro k'; simp)]
  exact initFS_files_filledFile tpl' uploadDir k

/-- C5 counterexample: the intermediate-file cleanup sits inside the
    `try` block with no `finally`: a record whose merge step raises (its
    output name contains a path separator) ends its run with the ERROR
    line logged while the split page file and its stamped variant are
    still present. -/
theorem c5_counterexample :
    (processRow 0 [("lastname", Value.vstr "a/b")]
        { fs := initFS [⟨0, []⟩], log := [], generated := [] }).log =
      [errorLine 0 [("lastname", Value.vstr "a/b")] "save: no such file or directory"] ∧
    (processRow 0 [("lastname", Value.vstr "a/b")]
        { fs := initFS [⟨0, []⟩], log := [], generated := [] }).fs.files
      (.pageFile uploadDir 1) = some [⟨0, []⟩] ∧
    (processRow 0 [("lastname", Value.vstr "a/b")]
        { fs := initFS [⟨0, []⟩], log := [], generated := [] }).fs.files
      (.filledFile uploadDir 1) = some [⟨0, [((75, 335), "a/b")]⟩] :=
  ⟨rfl, rfl, rfl⟩

/-- C5 (amended): on the success path the cleanup loop does run: after a
    record's `try` block completes without an exception on a fresh
    session filesystem, no intermediate page document (neither a split
    `page_k.pdf` nor a stamped `page_k_filled.pdf`) remains; on the
    failure path (see the counterexample) files created before the
    exception persist until the end-of-request session cleanup. -/
theorem c5_success_cleanup :
    ∀ (tpl : Doc) (data : Record) (fs1 : FS),
      recordTry (outPdfPath data) data (initFS tpl) = (.ok (), fs1) →
      ∀ k, fs1.files (.pageFile uploadDir k) = none ∧
        fs1.files (.filledFile uploadDir k) = none := by
  intro tpl data fs1 h k
  rcases tpl with - | ⟨q1, - | ⟨q2, - | ⟨q3, r⟩⟩⟩
  · -- zero-page template: saving the zero-page merge itself raises
    rw [recordTry_zero] at h
    simp at h
  · -- one-page template
    rw [recordTry_one] at h
    by_cases hc : (initFS [q1]).dirs.contains (parentDirOf (outPdfPath data)) = true
    · rw [if_pos hc] at h
      rw [Prod.mk.injEq] at h
      rw [← h.2]
      by_cases hk : k = 1
      · subst hk
        constructor
        · rw [cleanupFiles_files, if_pos (by simp)]
        · rw [cleanupFiles_files, if_pos (by simp)]
      · constructor
        · rw [cleanupFiles_files, if_neg (by simp [hk])]
          rw [fsWrite_files, if_neg (by simp [outPdfPath])]
          rw [fsWrite_files, if_neg (by simp)]
          exact writePages_init_pageFile_none [q1] [q1] k (by simp; omega)
        · rw [cleanupFiles_files, if_neg (by simp [hk])]
          rw [fsWrite_files, if_neg (by simp [outPdfPath])]
          rw [fsWrite_files, if_neg (by simp [hk])]
          exact writePages_init_filledFile_none [q1] [q1] k
    · rw [if_neg hc] at h
      simp at h
  · -- two-page template
    rw [recordTry_two] at h
    by_cases hc : (initFS [q1, q2]).dirs.contains (parentDirOf (outPdfPath data)) = true
    · rw [if_pos hc] at h
      rw [Prod.mk.injEq] at h
      rw [← h.2]
      by_cases hk : k = 1 ∨ k = 2
      · constructor
        · rw [cleanupFiles_files, if_pos (by rcases hk with hk | hk <;> simp [hk])]
        · by_cases hk1 : k = 1
          · rw [cleanupFiles_files, if_pos (by simp [hk1])]
          · have hk2 : k = 2 := by
              rcases hk with hk | hk
              · exact absurd hk hk1
              · exact hk
            rw [cleanupFiles_files, if_neg (by simp [hk2])]
            rw [fsWrite_files, if_neg (by simp [outPdfPath])]
            rw [fsWrite_files, if_neg (by simp [hk2])]
            exact writePages_init_filledFile_none [q1, q2] [q1, q2] k
      · have hk1 : k ≠ 1 := fun e => hk (Or.inl e)
        have hk2 : k ≠ 2 := fun e => hk (Or.inr e)
        constructor
        · rw [cleanupFiles_files, if_neg (by simp [hk1, hk2])]
          rw [fsWrite_files, if_neg (by simp [outPdfPath])]
          rw [fsWrite_files, if_neg (by simp)]
          exact writePages_init_pageFile_none [q1, q2] [q1, q2] k (by simp; omega)
        · rw [cleanupFiles_files, if_neg (by simp [hk1, hk2])]
          rw [fsWrite_files, if_neg (by simp [outPdfPath])]
          rw [fsWrite_files, if_neg (by simp [hk1])]
          exact writePages_init_filledFile_none [q1, q2] [q1, q2] k
    · rw [if_neg hc] at h
      simp at h
  · -- template with at least three pages
    rw [recordTry_threePlus] at h
    by_cases hc : (initFS (q1 :: q2 :: q3 :: r)).dirs.contains
      (parentDirOf (outPdfPath data)) = true
    · rw [if_pos hc] at h
      rw [Prod.mk.injEq] at h
      rw [← h.2]
      constructor
      · by_cases hk : 1 ≤ k ∧ k ≤ r.length + 3
        · rw [cleanupFiles_files,
            if_pos (by simp [mem_pagePaths_iff]; omega)]
        · rw [cleanupFiles_files,
            if_neg (by simp [mem_pagePaths_iff]; omega)]
          rw [fsWrite_files, if_neg (by simp [outPdfPath])]
          rw [fsWrite_files, if_neg (by simp)]
          rw [fsWrite_files, if_neg (by simp)]
          exact writePages_init_pageFile_none (q1 :: q2 :: q3 :: r) (q1 :: q2 :: q3 :: r) k
            (by simp; omega)
      · by_cases hk : k = 1 ∨ k = 3
        · rw [cleanupFiles_files, if_pos (by rcases hk with hk | hk <;> simp [hk])]
        · have hk1 : k ≠ 1 := fun e => hk (Or.inl e)
          have hk3 : k ≠ 3 := fun e => hk (Or.inr e)
          rw [cleanupFiles_files,
            if_neg (by simp [hk1, hk3, filledFile_not_mem_pagePaths])]
          rw [fsWrite_files, if_neg (by simp [outPdfPath])]
          rw [fsWrite_files, if_neg (by simp [hk3])]
          rw [fsWrite_files, if_neg (by simp [hk1])]
          exact writePages_init_filledFile_none (q1 :: q2 :: q3 :: r) (q1 :: q2 :: q3 :: r) k
    · rw [if_neg hc] at h
      simp at h

/-- C5 witness for the success path: a one-page template and a slash-free
    record leave no intermediate files behind. -/
theorem c5_success_cleanup_witness :
    ((recordTry (outPdfPath [("lastname", Value.vstr "A")])
        [("lastname", Value.vstr "A")] (initFS [⟨0, []⟩])).2).files
      (.pageFile uploadDir 1) = none ∧
    ((recordTry (outPdfPath [("lastname", Value.vstr "A")])
        [("lastname", Value.vstr "A")] (initFS [⟨0, []⟩])).2).files
      (.filledFile uploadDir 1) = none :=
  c5_success_cleanup [⟨0, []⟩] [("lastname", Value.vstr "A")]
    (recordTry (outPdfPath [("lastname", Value.vstr "A")])
      [("lastname", Value.vstr "A")] (initFS [⟨0, []⟩])).2 (by rfl) 1

/-- C8: processing a record against a template of at least three pages
    (with a separator-free output name) succeeds; exactly page 1 (with
    the mc/lastname/firstname/dob/wt/ht placement `coords_p1`) and
    page 3 (with the wt placement `coords_p3`) receive their
    `insert_text` overlays, every other page passes through with its
    content and overlays unmodified, and the merged output document
    holds all pages in the original template order. -/
theorem c8_pages_one_three_stamped :
    ∀ (p1 p2 p3 : Page) (rest : List Page) (data : Record),
      (outFilename data).data.contains '/' = false →
      (recordTry (outPdfPath data) data (initFS (p1 :: p2 :: p3 :: rest))).1 = .ok () ∧
      (recordTry (outPdfPath data) data (initFS (p1 :: p2 :: p3 :: rest))).2.files
          (outPdfPath data) =
        some (stampPage p1 (fillPageCalls data coords_p1) :: p2 ::
          stampPage p3 (fillPageCalls data coords_p3) :: rest) := by
  intro p1 p2 p3 rest data hname
  have hpd : parentDirOf (outPdfPath data) = completedDir := by
    rw [outPdfPath, parentDirOf, if_neg (by rw [hname]; simp)]
  have hc : (initFS (p1 :: p2 :: p3 :: rest)).dirs.contains
      (parentDirOf (outPdfPath data)) = true := by
    rw [hpd]
    rfl
  rw [recordTry_threePlus, if_pos hc]
  constructor
  · rfl
  · rw [cleanupFiles_files,
      if_neg (by simp [outPdfPath, named_not_mem_pagePaths])]
    rw [fsWrite_files, if_pos rfl]

/-- C8 witness: a four-page template and a weight-only record. -/
theorem c8_pages_one_three_stamped_witness :
    (recordTry (outPdfPath [("wt", Value.vstr "70")]) [("wt", Value.vstr "70")]
        (initFS [⟨1, []⟩, ⟨2, []⟩, ⟨3, []⟩, ⟨4, []⟩])).1 = .ok () ∧
    (recordTry (outPdfPath [("wt", Value.vstr "70")]) [("wt", Value.vstr "70")]
        (initFS [⟨1, []⟩, ⟨2, []⟩, ⟨3, []⟩, ⟨4, []⟩])).2.files
        (outPdfPath [("wt", Value.vstr "70")]) =
      some (stampPage ⟨1, []⟩ (fillPageCalls [("wt", Value.vstr "70")] coords_p1) :: ⟨2, []⟩ ::
        stampPage ⟨3, []⟩ (fillPageCalls [("wt", Value.vstr "70")] coords_p3) :: [⟨4, []⟩]) :=
  c8_pages_one_three_stamped ⟨1, []⟩ ⟨2, []⟩ ⟨3, []⟩ [⟨4, []⟩]
    [("wt", Value.vstr "70")] (by rfl)
